import Mathlib

/-!
A shallow embedding of the Monte Carlo simulation/calibration engine found in
src/monte-carlo/calibration.py: the functions monte_carlo_simulation,
generate_jump_diffusion_returns and calibrate_jump_diffusion_params.

Modelling conventions:
* Historical prices and returns are rationals; values produced by sqrt/exp
  live in the reals.
* Library statistics that produce NaN on empty input (pandas mean/std, numpy
  mean/std) are modelled with Option, none playing the role of NaN.
* The numpy global random generator is modelled as a family of deterministic
  draw streams (Entropy), indexed by the seed and a running position; the
  global generator state (RNG) is a seed plus a position, threaded
  explicitly.  np.random.seed s resets the state to position 0 of stream s.
  A draw of a (days, simulations) array consumes days * simulations
  consecutive positions, row major, and np.random.normal(m, s, ...) is
  m + s * (standard normal draw), matching numpy.
* Python runtime exceptions are modelled with Except PyErr.  The inductive
  also carries the error names used by the specification, which the source
  never raises, so that claims about them can be stated.
-/

/-- Python runtime errors the source can actually raise, together with the
error taxonomy named by the specification (which the source never defines or
raises). -/
inductive PyErr where
  | unboundLocal
  | keyError
  | zeroDivision
  | insufficientData
  | noPositiveReturns
  | unsupportedModel
  | invalidModel
  deriving DecidableEq

/-- A dense real matrix with explicit shape, entries given as a total
function (entries outside the shape are irrelevant). -/
structure Mat where
  rows : ℕ
  cols : ℕ
  entry : ℕ → ℕ → ℝ

/-- The deterministic draw streams behind the numpy global generator: for a
given seed and stream position, gauss gives the standard normal draw and
pois the Poisson draw for a given rate.  All theorems hold for every
Entropy, so nothing depends on the concrete bits of numpy's Mersenne
Twister, only on its being a fixed deterministic function of the seed. -/
structure Entropy where
  gauss : ℕ → ℕ → ℝ
  pois : ℕ → ℕ → ℝ → ℕ

/-- The state of the numpy global generator: current seed stream and the
position reached in it. -/
structure RNG where
  seed : ℕ
  pos : ℕ

/-- Line 23 of calibration.py: Series.pct_change, the simple
period-over-period return for every adjacent pair of prices (the leading
NaN is dropped by pandas mean/std, so it is omitted here). -/
def pctChange (prices : List ℚ) : List ℚ :=
  (prices.zip prices.tail).map (fun p => (p.2 - p.1) / p.1)

/-- pandas Series.mean and numpy mean: the arithmetic mean, NaN (none) on an
empty list. -/
def seriesMean (l : List ℚ) : Option ℚ :=
  if l.isEmpty then none else some (l.sum / (l.length : ℚ))

/-- The sample variance with divisor length - 1, the quantity under pandas
Series.std (ddof = 1). -/
def sampleVar (l : List ℚ) : ℚ :=
  ((l.map (fun x => (x - l.sum / (l.length : ℚ)) ^ 2)).sum) / ((l.length : ℚ) - 1)

/-- pandas Series.std: sample standard deviation with ddof = 1; NaN (none)
when fewer than two observations. -/
noncomputable def pandasStd (l : List ℚ) : Option ℝ :=
  if l.length ≤ 1 then none else some (Real.sqrt ((sampleVar l : ℚ) : ℝ))

/-- The population variance with divisor length, the quantity under
numpy std (ddof = 0). -/
def popVar (l : List ℚ) : ℚ :=
  ((l.map (fun x => (x - l.sum / (l.length : ℚ)) ^ 2)).sum) / (l.length : ℚ)

/-- numpy std: population standard deviation with ddof = 0; NaN (none) on an
empty array. -/
noncomputable def npStd (l : List ℚ) : Option ℝ :=
  if l.isEmpty then none else some (Real.sqrt ((popVar l : ℚ) : ℝ))

/-- The drift / volatility pair extracted on lines 27-28 of calibration.py.
NaN values, which pandas produces instead of raising, are modelled as
none. -/
structure ModelParameters where
  drift : Option ℚ
  volatility : Option ℝ

/-- Lines 23 and 27-28 of calibration.py, the historical statistics
estimator: daily returns by pct_change; drift = mean * lookback_days;
volatility = std * sqrt lookback_days.  The full return history always
contributes; lookback_days only scales. -/
noncomputable def estimateParameters (prices : List ℚ) (lookback_days : ℕ) : ModelParameters :=
  let daily_return := pctChange prices
  ⟨(seriesMean daily_return).map (fun m => m * (lookback_days : ℚ)),
   (pandasStd daily_return).map (fun s => s * Real.sqrt ((lookback_days : ℕ) : ℝ))⟩

/-- The dictionary returned by calibrate_jump_diffusion_params, lines
114-118.  Mean and std are none when numpy would produce NaN. -/
structure JumpDict where
  jump_size_mean : Option ℚ
  jump_size_std : Option ℝ
  jump_intensity : ℚ

/-- Lines 107-118 of calibration.py.  The positive subset of the returns
feeds np.mean and np.std, which produce NaN (none) rather than raising when
that subset is empty; the final division len(pos)/len(returns) raises
ZeroDivisionError on an empty input array. -/
noncomputable def calibrate_jump_diffusion_params (returns : List ℚ) : Except PyErr JumpDict :=
  let pos := returns.filter (fun r => 0 < r)
  let mean_jump_size := seriesMean pos
  let std_jump_size := npStd pos
  if returns.length = 0 then Except.error PyErr.zeroDivision
  else Except.ok ⟨mean_jump_size, std_jump_size, (pos.length : ℚ) / (returns.length : ℚ)⟩

/-- Python truthiness of the jump_params argument (None or a dict): None and
the empty dict are falsy, a non-empty dict is truthy.  This is the guard on
line 42 of calibration.py. -/
def pyTruthy : Option (List (String × ℝ)) → Bool
  | none => false
  | some d => !d.isEmpty

/-- Lines 79-103 of calibration.py.  The function reseeds the global
generator to 42 on entry (line 91), so the incoming generator state is
irrelevant and is not a parameter.  dt = 1/days; the three array draws
consume three consecutive blocks of days * simulations stream positions:
first the Poisson jump counts, then the normal jump sizes, then the
diffusion shocks (normal with standard deviation sqrt dt). -/
noncomputable def generate_jump_diffusion_returns (e : Entropy)
    (jump_size_mean jump_size_std jump_intensity drift volatility : ℝ)
    (days simulations : ℕ) : Mat × RNG :=
  let dt : ℝ := 1 / (days : ℝ)
  let ds := days * simulations
  let jump_process : ℕ → ℕ → ℕ := fun i j =>
    e.pois 42 (i * simulations + j) (jump_intensity * dt)
  let jump_returns : ℕ → ℕ → ℝ := fun i j =>
    (jump_size_mean + jump_size_std * e.gauss 42 (ds + i * simulations + j))
      * (jump_process i j : ℝ)
  let drift_returns : ℝ := (drift - 0.5 * volatility ^ 2) * dt
  let diffusion_returns : ℕ → ℕ → ℝ := fun i j =>
    volatility * (Real.sqrt dt * e.gauss 42 (2 * ds + i * simulations + j))
  let total_returns : ℕ → ℕ → ℝ := fun i j =>
    Real.exp (drift_returns + diffusion_returns i j + jump_returns i j) - 1
  (⟨days, simulations, fun i j => 1 + total_returns i j⟩, ⟨42, 3 * ds⟩)

/-- The if/elif chain on lines 33-51 of calibration.py that binds
daily_returns.  There is no else branch: when no guard fires the name
daily_returns stays unbound and the later use on line 53 raises
UnboundLocalError.  The jump branch guard tests the truthiness of
jump_params, and the three dictionary subscripts raise KeyError when a key
is missing. -/
noncomputable def daily_returns_of (e : Entropy) (drift volatility : ℝ)
    (distribution : String) (simulations : ℕ)
    (jump_params : Option (List (String × ℝ))) (days : ℕ) : Except PyErr (Mat × RNG) :=
  if distribution = "lognormal" then
    Except.ok (⟨days, simulations, fun i j =>
      Real.exp ((drift - 0.5 * volatility ^ 2)
        + volatility * e.gauss 42 (i * simulations + j))⟩,
      ⟨42, days * simulations⟩)
  else if distribution = "normal" then
    Except.ok (⟨days, simulations, fun i j =>
      (drift - 0.5 * volatility ^ 2) + volatility * e.gauss 42 (i * simulations + j)⟩,
      ⟨42, days * simulations⟩)
  else if distribution = "jump_diffusion" ∧ pyTruthy jump_params = true then
    match jump_params with
    | none => Except.error PyErr.unboundLocal
    | some d =>
      match d.lookup ("jump_size_mean"), d.lookup ("jump_size_std"),
          d.lookup ("jump_intensity") with
      | some jm, some js, some ji =>
        Except.ok (generate_jump_diffusion_returns e jm js ji drift volatility days simulations)
      | _, _, _ => Except.error PyErr.keyError
  else Except.error PyErr.unboundLocal

/-- Lines 29-55 of calibration.py, the path generation core of
monte_carlo_simulation after the historical statistics have been extracted:
days is hard coded to 252, the global generator is reseeded to 42 (line 32),
the chosen branch binds daily_returns, the cumulative product along the day
axis is scaled by the initial price, and the result is clipped into
[0.01, 3000].  When daily_returns stays unbound the call raises; the
generator state at that point is the freshly seeded one. -/
noncomputable def monte_carlo_core (e : Entropy) (g : RNG)
    (initial_price drift volatility : ℝ) (distribution : String) (simulations : ℕ)
    (jump_params : Option (List (String × ℝ))) : Except PyErr Mat × RNG :=
  let days : ℕ := 252
  match daily_returns_of e drift volatility distribution simulations jump_params days with
  | Except.error err => (Except.error err, ⟨42, 0⟩)
  | Except.ok (dr, g1) =>
    let price_simulations : Mat := ⟨dr.rows, dr.cols, fun i j =>
      initial_price * ∏ k in Finset.range (i + 1), dr.entry k j⟩
    let clipped : Mat := ⟨price_simulations.rows, price_simulations.cols, fun i j =>
      min 3000 (max 0.01 (price_simulations.entry i j))⟩
    (Except.ok clipped, g1)

/-- The simulation request of the specification's data model.  The source
has no horizonDays and no randomSeed input: it fixes 252 simulated days and
seed 42, so those two fields have no effect on the embedded code. -/
structure SimulationRequest where
  initialPrice : ℝ
  drift : ℝ
  volatility : ℝ
  model : String
  jumpParams : Option (List (String × ℝ))
  horizonDays : ℕ
  pathCount : ℕ
  randomSeed : ℕ

/-- The specification's simulate interface over the embedded path generation
core: the request supplies initial price, model parameters, model tag, jump
parameters and path count; the source ignores horizonDays and randomSeed. -/
noncomputable def simulate (e : Entropy) (g : RNG) (req : SimulationRequest) :
    Except PyErr Mat × RNG :=
  monte_carlo_core e g req.initialPrice req.drift req.volatility req.model
    req.pathCount req.jumpParams

/-- Shape of a simulation outcome: the (rows, cols) pair on success, none on
an exception. -/
def resultShape : Except PyErr Mat → Option (ℕ × ℕ)
  | Except.ok m => some (m.rows, m.cols)
  | Except.error _ => none

/-- Entry accessor for a simulation outcome (0 on an exception). -/
noncomputable def resultEntry : Except PyErr Mat → ℕ → ℕ → ℝ
  | Except.ok m, i, j => m.entry i j
  | Except.error _, _, _ => 0

/-- Validity of a request in the specification's sense: positive initial
price, horizon and path count, and a recognized model, with usable jump
parameters when the jump diffusion model is selected. -/
def validRequest (req : SimulationRequest) : Prop :=
  0 < req.initialPrice ∧ 0 < req.horizonDays ∧ 0 < req.pathCount ∧
    (req.model = "lognormal" ∨ req.model = "normal" ∨
      (req.model = "jump_diffusion" ∧
        ∃ d jm js ji, req.jumpParams = some d ∧
          d.lookup ("jump_size_mean") = some jm ∧
          d.lookup ("jump_size_std") = some js ∧
          d.lookup ("jump_intensity") = some ji))

/-- The mean of a list of rationals as the specification words it. -/
def specMean (l : List ℚ) : ℚ := l.sum / (l.length : ℚ)

/-- The population variance as the specification words it (mean squared
deviation from the mean). -/
def specVar (l : List ℚ) : ℚ :=
  ((l.map (fun x => (x - specMean l) ^ 2)).sum) / (l.length : ℚ)

/-- The degenerate draw streams, used to instantiate theorems on concrete
inputs. -/
def zeroEntropy : Entropy := ⟨fun _ _ => 0, fun _ _ _ => 0⟩

/-- An arbitrary incoming generator state for concrete instantiations. -/
def rng0 : RNG := ⟨0, 0⟩

/-- Every clipped value lies in the clamp range. -/
theorem clip_mem_range (x : ℝ) :
    0.01 ≤ min 3000 (max 0.01 x) ∧ min 3000 (max 0.01 x) ≤ 3000 :=
  ⟨le_min (by norm_num) (le_max_left _ _), min_le_left _ _⟩

/-- A successful dictionary lookup forces the dictionary to be non-empty. -/
theorem lookup_isEmpty_false {d : List (String × ℝ)} {k : String} {v : ℝ}
    (h : d.lookup k = some v) : d.isEmpty = false := by
  cases d with
  | nil => simp [List.lookup] at h
  | cons a t => rfl

/-- Claim C3: calling simulate twice with an identical request yields
identical matrices.  The source reseeds the global generator to the constant
42 on every call (line 32 of calibration.py), so the outcome does not depend
on the incoming generator state: any two calls with the same request agree,
and in particular a second call issued right after a first one reproduces
it. -/
theorem c3_determinism (e : Entropy) (req : SimulationRequest) (g g' : RNG) :
    (simulate e g req).1 = (simulate e g' req).1 ∧
    (simulate e (simulate e g req).2 req).1 = (simulate e g req).1 :=
  ⟨rfl, rfl⟩

/-- A concrete jump diffusion request with absent jump parameters. -/
def c5Request : SimulationRequest :=
  ⟨100, 0.001, 0.02, "jump_diffusion", none, 252, 4, 42⟩

/-- Claim C5 fails as stated: with model jump_diffusion and absent jump
parameters the source does not raise UnsupportedModelError (no such error
exists in the code); the guard on line 42 fails, no branch binds
daily_returns, and line 53 raises UnboundLocalError. -/
theorem c5_counterexample :
    (simulate zeroEntropy rng0 c5Request).1 = Except.error PyErr.unboundLocal ∧
    PyErr.unboundLocal ≠ PyErr.unsupportedModel :=
  ⟨rfl, by decide⟩

/-- Claim C5 (amended): for every request with model jump_diffusion and
absent (None) jump parameters, simulate raises UnboundLocalError - the
fallthrough leaves daily_returns unbound - rather than returning a
partially populated or undefined result; no UnsupportedModelError exists in
the source. -/
theorem c5_amended (e : Entropy) (g : RNG) (req : SimulationRequest)
    (hm : req.model = "jump_diffusion") (hp : req.jumpParams = none) :
    (simulate e g req).1 = Except.error PyErr.unboundLocal := by
  simp [simulate, monte_carlo_core, daily_returns_of, hm, hp, pyTruthy]

/-- Witness for the amended claim C5 at a concrete request. -/
theorem c5_amended_witness :
    c5Request.model = "jump_diffusion" ∧ c5Request.jumpParams = none ∧
    (simulate zeroEntropy rng0 c5Request).1 = Except.error PyErr.unboundLocal :=
  ⟨rfl, rfl, c5_amended zeroEntropy rng0 c5Request rfl rfl⟩

/-- A concrete jump diffusion request whose jump parameter dictionary is
present but empty, hence falsy. -/
def c10Request : SimulationRequest :=
  ⟨100, 0.001, 0.02, "jump_diffusion", some [], 252, 4, 42⟩

/-- Claim C10: when model is jump_diffusion and the jump parameter
dictionary is present but falsy (empty), the branch guard - which tests
truthiness, not presence - fails, and the call reaches the same
unbound-result fallthrough as an unrecognized model tag, instead of raising
UnsupportedModelError. -/
theorem c10_truthiness (e : Entropy) (g : RNG) (req : SimulationRequest)
    (tag : String) (hm : req.model = "jump_diffusion")
    (hp : req.jumpParams = some []) (h1 : tag ≠ "lognormal") (h2 : tag ≠ "normal") :
    (simulate e g req).1 = Except.error PyErr.unboundLocal ∧
    (simulate e g { req with model := tag }).1 = Except.error PyErr.unboundLocal ∧
    PyErr.unboundLocal ≠ PyErr.unsupportedModel := by
  refine ⟨?_, ?_, by decide⟩
  · simp [simulate, monte_carlo_core, daily_returns_of, hm, hp, pyTruthy]
  · by_cases h3 : tag = "jump_diffusion"
    · simp [simulate, monte_carlo_core, daily_returns_of, h3, hp, pyTruthy]
    · simp [simulate, monte_carlo_core, daily_returns_of, h1, h2, h3, hp, pyTruthy]

/-- Witness for claim C10 at a concrete request and a concrete unrecognized
tag. -/
theorem c10_truthiness_witness :
    c10Request.model = "jump_diffusion" ∧ c10Request.jumpParams = some [] ∧
    ("gbm" : String) ≠ "lognormal" ∧ ("gbm" : String) ≠ "normal" ∧
    ((simulate zeroEntropy rng0 c10Request).1 = Except.error PyErr.unboundLocal ∧
     (simulate zeroEntropy rng0 { c10Request with model := "gbm" }).1 =
       Except.error PyErr.unboundLocal ∧
     PyErr.unboundLocal ≠ PyErr.unsupportedModel) :=
  ⟨rfl, rfl, by decide, by decide,
    c10_truthiness zeroEntropy rng0 c10Request "gbm" rfl rfl (by decide) (by decide)⟩

/-- Claim C9: every per-period growth factor produced by the jump diffusion
generator equals exp(driftTerm + diffusionTerm + jumpTerm), with
driftTerm = (drift - volatility^2/2) * dt, diffusionTerm =
volatility * sqrt dt * z for the standard normal shock z at that cell,
jumpTerm = (jump size shock) * (Poisson jump count), and dt = 1/days; in
particular every growth factor is strictly positive before clamping.  The
source computes exp(...) - 1 and then adds 1 back (lines 102-103). -/
theorem c9_jump_growth_factor (e : Entropy)
    (jm js ji drift volatility : ℝ) (days simulations i j : ℕ) :
    (generate_jump_diffusion_returns e jm js ji drift volatility days simulations).1.entry i j =
      Real.exp ((drift - 0.5 * volatility ^ 2) * (1 / (days : ℝ))
        + volatility * Real.sqrt (1 / (days : ℝ))
            * e.gauss 42 (2 * (days * simulations) + i * simulations + j)
        + (jm + js * e.gauss 42 (days * simulations + i * simulations + j))
            * (e.pois 42 (i * simulations + j) (ji * (1 / (days : ℝ))) : ℝ)) ∧
    0 < (generate_jump_diffusion_returns e jm js ji drift volatility days simulations).1.entry i j := by
  constructor
  · simp only [generate_jump_diffusion_returns]
    ring_nf
  · simp only [generate_jump_diffusion_returns]
    have h : (1 : ℝ) + (Real.exp ((drift - 0.5 * volatility ^ 2) * (1 / (days : ℝ))
        + volatility * (Real.sqrt (1 / (days : ℝ))
            * e.gauss 42 (2 * (days * simulations) + i * simulations + j))
        + (jm + js * e.gauss 42 (days * simulations + i * simulations + j))
            * (e.pois 42 (i * simulations + j) (ji * (1 / (days : ℝ))) : ℝ)) - 1) =
      Real.exp ((drift - 0.5 * volatility ^ 2) * (1 / (days : ℝ))
        + volatility * (Real.sqrt (1 / (days : ℝ))
            * e.gauss 42 (2 * (days * simulations) + i * simulations + j))
        + (jm + js * e.gauss 42 (days * simulations + i * simulations + j))
            * (e.pois 42 (i * simulations + j) (ji * (1 / (days : ℝ))) : ℝ)) := by ring
    rw [h]
    exact Real.exp_pos _

/-- Claim C2: on a return series whose positive subset is non-empty (n > 0
positives out of m observations), calibrate_jump_diffusion_params returns
jump_intensity = n/m, jump_size_mean = mean of the positive subset and
jump_size_std = standard deviation (numpy, divisor n) of the positive
subset. -/
theorem c2_calibration (returns : List ℚ)
    (h : returns.filter (fun r => 0 < r) ≠ []) :
    calibrate_jump_diffusion_params returns =
      Except.ok ⟨some (specMean (returns.filter (fun r => 0 < r))),
        some (Real.sqrt ((specVar (returns.filter (fun r => 0 < r)) : ℚ) : ℝ)),
        ((returns.filter (fun r => 0 < r)).length : ℚ) / (returns.length : ℚ)⟩ := by
  have hnil : returns ≠ [] := by
    intro he
    exact h (by simp [he])
  have hlen : ¬ returns.length = 0 := by
    simpa [List.length_eq_zero] using hnil
  have hpos : (returns.filter (fun r => 0 < r)).isEmpty = false := by
    simpa [List.isEmpty_iff] using h
  simp [calibrate_jump_diffusion_params, hlen, seriesMean, npStd, hpos,
    specMean, specVar, popVar]

/-- Witness for claim C2 on the series [1, -1, 2]: two positives out of
three observations. -/
theorem c2_calibration_witness :
    ([(1 : ℚ), -1, 2].filter (fun r => 0 < r) ≠ []) ∧
    calibrate_jump_diffusion_params [(1 : ℚ), -1, 2] =
      Except.ok ⟨some (specMean ([(1 : ℚ), -1, 2].filter (fun r => 0 < r))),
        some (Real.sqrt ((specVar ([(1 : ℚ), -1, 2].filter (fun r => 0 < r)) : ℚ) : ℝ)),
        (([(1 : ℚ), -1, 2].filter (fun r => 0 < r)).length : ℚ)
          / (([(1 : ℚ), -1, 2] : List ℚ).length : ℚ)⟩ :=
  ⟨by decide, c2_calibration [(1 : ℚ), -1, 2] (by decide)⟩

/-- Claim C6 fails as stated: on the non-empty all-negative series [-1] the
calibrator does not raise NoPositiveReturnsError (no such error exists in
the source); it returns a dictionary whose mean and std entries are NaN
(modelled none) and whose intensity is 0. -/
theorem c6_counterexample :
    calibrate_jump_diffusion_params [(-1 : ℚ)] = Except.ok ⟨none, none, 0⟩ := by
  norm_num [calibrate_jump_diffusion_params, seriesMean, npStd]

/-- Claim C6 (amended): on the empty return series the division
len(pos)/len(returns) raises ZeroDivisionError (not InsufficientDataError,
which the source never defines), and on every non-empty series with no
strictly positive value the calibrator returns normally with NaN
(modelled none) jump_size_mean and jump_size_std and jump_intensity 0,
rather than raising NoPositiveReturnsError. -/
theorem c6_amended (returns : List ℚ) :
    (calibrate_jump_diffusion_params [] = Except.error PyErr.zeroDivision) ∧
    (returns ≠ [] → returns.filter (fun r => 0 < r) = [] →
      calibrate_jump_diffusion_params returns = Except.ok ⟨none, none, 0⟩) := by
  constructor
  · rfl
  · intro h1 h2
    have hlen : ¬ returns.length = 0 := by
      simpa [List.length_eq_zero] using h1
    simp [calibrate_jump_diffusion_params, hlen, h2, seriesMean, npStd]

/-- Witness for the amended claim C6 at the empty series and at the
all-negative series [-1]. -/
theorem c6_amended_witness :
    calibrate_jump_diffusion_params [] = Except.error PyErr.zeroDivision ∧
    calibrate_jump_diffusion_params [(-1 : ℚ)] = Except.ok ⟨none, none, 0⟩ :=
  ⟨(c6_amended []).1, (c6_amended [(-1 : ℚ)]).2 (by decide) (by decide)⟩

/-- Claim C8 fails as stated: on the 1-point price series [100] the
estimator does not raise InsufficientDataError (no such error exists in the
source); pandas produces NaN statistics, modelled as absent drift and
volatility. -/
theorem c8_counterexample :
    estimateParameters [(100 : ℚ)] 1 = ⟨none, none⟩ := rfl

/-- Claim C8 (amended): for every price series with fewer than 2 points the
estimator returns normally with NaN (modelled none) drift and volatility;
no error is raised. -/
theorem c8_amended (prices : List ℚ) (lookback_days : ℕ)
    (h : prices.length < 2) :
    estimateParameters prices lookback_days = ⟨none, none⟩ := by
  match prices with
  | [] => rfl
  | [p] => rfl
  | p :: q :: r =>
    exact absurd h (by simp [List.length_cons])

/-- Witness for the amended claim C8 at the 1-point series [100]. -/
theorem c8_amended_witness :
    ([(100 : ℚ)] : List ℚ).length < 2 ∧
    estimateParameters [(100 : ℚ)] 3 = ⟨none, none⟩ :=
  ⟨by decide, c8_amended [(100 : ℚ)] 3 (by decide)⟩

/-- Any matrix produced by a successful branch of the if/elif chain has
days rows and simulations columns. -/
theorem daily_returns_shape (e : Entropy) (dr vol : ℝ) (dist : String)
    (sims : ℕ) (jp : Option (List (String × ℝ))) (days : ℕ)
    (mat : Mat) (g1 : RNG)
    (h : daily_returns_of e dr vol dist sims jp days = Except.ok (mat, g1)) :
    mat.rows = days ∧ mat.cols = sims := by
  unfold daily_returns_of at h
  split_ifs at h
  · cases h; exact ⟨rfl, rfl⟩
  · cases h; exact ⟨rfl, rfl⟩
  · split at h
    all_goals
      first
        | exact Except.noConfusion h
        | (split at h
           all_goals
             first
               | exact Except.noConfusion h
               | (simp only [generate_jump_diffusion_returns, Except.ok.injEq,
                     Prod.mk.injEq] at h
                  obtain ⟨h4, h5⟩ := h
                  subst h4
                  exact ⟨rfl, rfl⟩))

/-- On a successful branch, the core scales the cumulative product of the
per-period factors by the initial price and clips every entry into
[0.01, 3000]. -/
theorem monte_carlo_core_ok (e : Entropy) (g : RNG) (ip dr vol : ℝ)
    (dist : String) (sims : ℕ) (jp : Option (List (String × ℝ)))
    (mat : Mat) (g1 : RNG)
    (hp : daily_returns_of e dr vol dist sims jp 252 = Except.ok (mat, g1)) :
    (monte_carlo_core e g ip dr vol dist sims jp).1 =
      Except.ok ⟨mat.rows, mat.cols, fun i j =>
        min 3000 (max 0.01 (ip * ∏ k in Finset.range (i + 1), mat.entry k j))⟩ := by
  simp only [monte_carlo_core, hp]

/-- A valid lognormal request asking for a 5 day horizon and 3 paths. -/
def c1Request : SimulationRequest :=
  ⟨100, 0.001, 0.02, "lognormal", none, 5, 3, 7⟩

/-- Claim C1 fails as stated: this valid request asks for horizonDays = 5,
but the source hard codes 252 simulated days (line 29 of calibration.py),
so the matrix has 252 rows, not horizonDays rows. -/
theorem c1_counterexample :
    validRequest c1Request ∧
    resultShape (simulate zeroEntropy rng0 c1Request).1 = some (252, 3) ∧
    c1Request.horizonDays = 5 ∧ (252 : ℕ) ≠ 5 :=
  ⟨⟨by norm_num [c1Request], by decide, by decide, Or.inl rfl⟩, rfl, rfl, by decide⟩

/-- Claim C1 (amended): for every valid request the simulation succeeds and
the matrix has exactly 252 rows (the hard coded horizon; the request's
horizonDays is ignored) and pathCount columns, and every entry lies within
the clamp range [0.01, 3000]. -/
theorem c1_amended (e : Entropy) (g : RNG) (req : SimulationRequest)
    (h : validRequest req) :
    resultShape (simulate e g req).1 = some (252, req.pathCount) ∧
    ∀ i j, 0.01 ≤ resultEntry (simulate e g req).1 i j ∧
      resultEntry (simulate e g req).1 i j ≤ 3000 := by
  obtain ⟨-, -, -, hmodel⟩ := h
  have hsucc : ∃ p, daily_returns_of e req.drift req.volatility req.model
      req.pathCount req.jumpParams 252 = Except.ok p := by
    rcases hmodel with hm | hm | ⟨hm, d, jm, js, ji, hd, h1, h2, h3⟩
    · exact ⟨(⟨252, req.pathCount, fun i j =>
        Real.exp ((req.drift - 0.5 * req.volatility ^ 2)
          + req.volatility * e.gauss 42 (i * req.pathCount + j))⟩,
        ⟨42, 252 * req.pathCount⟩), by rw [hm]; rfl⟩
    · exact ⟨(⟨252, req.pathCount, fun i j =>
        (req.drift - 0.5 * req.volatility ^ 2)
          + req.volatility * e.gauss 42 (i * req.pathCount + j)⟩,
        ⟨42, 252 * req.pathCount⟩), by rw [hm]; rfl⟩
    · refine ⟨generate_jump_diffusion_returns e jm js ji req.drift
        req.volatility 252 req.pathCount, ?_⟩
      rw [hm, hd]
      have hne : d.isEmpty = false := lookup_isEmpty_false h1
      simp [daily_returns_of, pyTruthy, hne, h1, h2, h3]
  obtain ⟨⟨mat, g1⟩, hp⟩ := hsucc
  have hshape := daily_returns_shape e req.drift req.volatility req.model
    req.pathCount req.jumpParams 252 mat g1 hp
  have hok := monte_carlo_core_ok e g req.initialPrice req.drift req.volatility
    req.model req.pathCount req.jumpParams mat g1 hp
  constructor
  · simp only [simulate, hok, resultShape]
    rw [hshape.1, hshape.2]
  · intro i j
    simp only [simulate, hok, resultEntry]
    exact clip_mem_range _

/-- A concrete valid request on the normal branch used to witness the
amended claim C1. -/
def c1WitnessRequest : SimulationRequest :=
  ⟨100, 0.001, 0.02, "normal", none, 10, 2, 7⟩

/-- Witness for the amended claim C1 at a concrete valid request. -/
theorem c1_amended_witness :
    validRequest c1WitnessRequest ∧
    (resultShape (simulate zeroEntropy rng0 c1WitnessRequest).1 =
        some (252, c1WitnessRequest.pathCount) ∧
     ∀ i j, 0.01 ≤ resultEntry (simulate zeroEntropy rng0 c1WitnessRequest).1 i j ∧
       resultEntry (simulate zeroEntropy rng0 c1WitnessRequest).1 i j ≤ 3000) :=
  have hv : validRequest c1WitnessRequest :=
    ⟨by norm_num [c1WitnessRequest], by decide, by decide, Or.inr (Or.inl rfl)⟩
  ⟨hv, c1_amended zeroEntropy rng0 c1WitnessRequest hv⟩

/-- The end-to-end scenario price series of the specification. -/
def c4Prices : List ℚ := [100, 101, 99, 102]

/-- The volatility the estimator computes for the scenario series with a
lookback of 1 day: the pandas sample standard deviation (ddof = 1) of the
returns, scaled by sqrt 1. -/
noncomputable def c4Volatility : ℝ :=
  Real.sqrt ((sampleVar (pctChange c4Prices) : ℚ) : ℝ) * Real.sqrt ((1 : ℕ) : ℝ)

/-- The exact sample variance of the scenario returns with divisor n - 1,
as pandas Series.std computes it. -/
theorem c4_sampleVar_value :
    sampleVar (pctChange c4Prices) = 211673389 / 333266670000 := by
  norm_num [sampleVar, pctChange, c4Prices]

/-- Claim C4 fails as stated: for the series [100, 101, 99, 102] with a
1 day lookback the estimator's volatility is the pandas sample standard
deviation (ddof = 1) of the returns, about 0.0252; it exceeds 0.021 and so
is not approximately 0.0205 (the figure 0.0205 matches the population
standard deviation, divisor n, which the source does not use here). -/
theorem c4_counterexample :
    (estimateParameters c4Prices 1).volatility = some c4Volatility ∧
    (0.021 : ℝ) < c4Volatility := by
  constructor
  · rfl
  · unfold c4Volatility
    rw [c4_sampleVar_value]
    have h1 : Real.sqrt (((1 : ℕ) : ℝ)) = 1 := by
      rw [Nat.cast_one, Real.sqrt_one]
    rw [h1, mul_one]
    have h2 : ((211673389 / 333266670000 : ℚ) : ℝ) = 211673389 / 333266670000 := by
      push_cast
      ring
    rw [h2]
    rw [Real.lt_sqrt (by norm_num)]
    norm_num

/-- Claim C4 (amended): the return series is exactly [1/100, -2/101, 1/33],
matching 0.01, -0.0198, 0.0303 to four decimal places; drift =
mean(returns) * 1 = 6833/999900, approximately 0.0068; volatility is the
pandas sample standard deviation (ddof = 1) of the returns times sqrt 1,
which lies between 0.0252 and 0.0253 (approximately 0.0252, not 0.0205). -/
theorem c4_amended :
    pctChange c4Prices = [1/100, -2/101, 1/33] ∧
    |(-2/101 : ℚ) - (-0.0198)| < 0.00005 ∧
    |(1/33 : ℚ) - 0.0303| < 0.00005 ∧
    (estimateParameters c4Prices 1).drift = some (6833 / 999900) ∧
    |(6833 / 999900 : ℚ) - 0.0068| < 0.00005 ∧
    (estimateParameters c4Prices 1).volatility = some c4Volatility ∧
    (0.0252 : ℝ) < c4Volatility ∧ c4Volatility < 0.0253 := by
  have h1 : Real.sqrt (((1 : ℕ) : ℝ)) = 1 := by
    rw [Nat.cast_one, Real.sqrt_one]
  have h2 : ((211673389 / 333266670000 : ℚ) : ℝ) = 211673389 / 333266670000 := by
    push_cast
    ring
  refine ⟨by norm_num [pctChange, c4Prices],
    by rw [abs_sub_lt_iff]; exact ⟨by norm_num, by norm_num⟩,
    by rw [abs_sub_lt_iff]; exact ⟨by norm_num, by norm_num⟩, ?_,
    by rw [abs_sub_lt_iff]; exact ⟨by norm_num, by norm_num⟩, rfl, ?_, ?_⟩
  · norm_num [estimateParameters, seriesMean, pctChange, c4Prices]
  · unfold c4Volatility
    rw [c4_sampleVar_value, h1, mul_one, h2, Real.lt_sqrt (by norm_num)]
    norm_num
  · unfold c4Volatility
    rw [c4_sampleVar_value, h1, mul_one, h2, Real.sqrt_lt' (by norm_num)]
    norm_num

/-- seriesMean on a non-empty list is the arithmetic mean. -/
theorem seriesMean_of_ne_nil {l : List ℚ} (h : l ≠ []) :
    seriesMean l = some (l.sum / (l.length : ℚ)) := by
  simp [seriesMean, h]

/-- pandasStd on at least two observations is the sample standard
deviation. -/
theorem pandasStd_of_two_le {l : List ℚ} (h : 2 ≤ l.length) :
    pandasStd l = some (Real.sqrt ((sampleVar l : ℚ) : ℝ)) := by
  have hgt : ¬ l.length ≤ 1 := by omega
  simp [pandasStd, hgt]

/-- Claim C7 fails as stated at a boundary the claim covers: the 2-point
series [100, 101] yields a single return, whose pandas sample standard
deviation (ddof = 1) is NaN, so the estimator's volatility is NaN (modelled
none) and equals no real value at all - in particular not the standard
deviation of the returns times sqrt lookbackDays. -/
theorem c7_counterexample :
    2 ≤ ([(100 : ℚ), 101] : List ℚ).length ∧
    (estimateParameters [(100 : ℚ), 101] 1).volatility = none ∧
    (none : Option ℝ) ≠
      some (Real.sqrt ((sampleVar (pctChange [(100 : ℚ), 101]) : ℚ) : ℝ)
        * Real.sqrt ((1 : ℕ) : ℝ)) :=
  ⟨by decide, rfl, by simp⟩

/-- Claim C7 (amended): for every price series with at least 2 points,
drift equals the mean of the simple period-over-period returns times
lookback_days, and the return series is built from every adjacent pair of
the full available history (one return per pair; lookback_days never
subsets it).  Volatility equals the sample standard deviation (ddof = 1) of
those returns times sqrt lookback_days once at least two returns exist
(at least 3 points); on exactly 2 points the single return has an undefined
sample standard deviation and the estimator's volatility is NaN (modelled
none). -/
theorem c7_amended (prices : List ℚ) (lookback_days : ℕ)
    (h : 2 ≤ prices.length) :
    (estimateParameters prices lookback_days).drift =
      some (specMean (pctChange prices) * (lookback_days : ℚ)) ∧
    (3 ≤ prices.length →
      (estimateParameters prices lookback_days).volatility =
        some (Real.sqrt ((sampleVar (pctChange prices) : ℚ) : ℝ)
          * Real.sqrt ((lookback_days : ℕ) : ℝ))) ∧
    (prices.length = 2 →
      (estimateParameters prices lookback_days).volatility = none) ∧
    (pctChange prices).length = prices.length - 1 := by
  have hlen : (pctChange prices).length = prices.length - 1 := by
    simp only [pctChange, List.length_map, List.length_zip, List.length_tail]
    exact Nat.min_eq_right (Nat.sub_le _ _)
  refine ⟨?_, ?_, ?_, hlen⟩
  · have hne : pctChange prices ≠ [] := by
      rw [← List.length_pos]
      omega
    rw [estimateParameters]
    simp [seriesMean_of_ne_nil hne, specMean]
  · intro h3
    have h2 : 2 ≤ (pctChange prices).length := by omega
    rw [estimateParameters]
    simp [pandasStd_of_two_le h2]
  · intro h2
    have hl1 : (pctChange prices).length = 1 := by omega
    rw [estimateParameters]
    simp [pandasStd, hl1]

/-- A concrete 3-point price series used to witness the amended claim C7. -/
def c7Prices : List ℚ := [10, 20, 25]

/-- Witness for the amended claim C7: the 3-point series [10, 20, 25] with
lookback 4 exercises the drift, volatility and full-history clauses, and
the 2-point series [100, 101] exercises the NaN-volatility boundary
clause. -/
theorem c7_amended_witness :
    2 ≤ c7Prices.length ∧
    (estimateParameters c7Prices 4).drift =
      some (specMean (pctChange c7Prices) * ((4 : ℕ) : ℚ)) ∧
    (estimateParameters c7Prices 4).volatility =
      some (Real.sqrt ((sampleVar (pctChange c7Prices) : ℚ) : ℝ)
        * Real.sqrt ((4 : ℕ) : ℝ)) ∧
    (pctChange c7Prices).length = c7Prices.length - 1 ∧
    (estimateParameters [(100 : ℚ), 101] 1).volatility = none :=
  ⟨by decide, (c7_amended c7Prices 4 (by decide)).1,
   (c7_amended c7Prices 4 (by decide)).2.1 (by decide),
   (c7_amended c7Prices 4 (by decide)).2.2.2,
   (c7_amended [(100 : ℚ), 101] 1 (by decide)).2.2.1 (by decide)⟩
